import Mathlib

/-!
Verification of the detection and alerting engine of the
sovereign-network-defense repository.

The Python sources are shallowly embedded as executable Lean definitions:

* `src/network/packet_monitor.py` — the port-scan detector
  (`PacketMonitor.detect_port_scan`), modelled by `scanEntryStep`,
  `detect_port_scan` and `runScan`;
* `src/network/monitor.py` — the connection classifier
  (`NetworkMonitor.is_inbound_connection`, `analyze_connection`,
  `monitor`), modelled by `is_inbound_connection`, `analyze_connection`
  and `processConn` / `runMonitor`;
* `src/files/file_monitor.py` — the file-event classifier
  (`FileAccessMonitor.should_alert`, `on_modified`, `on_created`,
  `on_deleted`, `on_moved`), modelled by `should_alert`, `on_modified`,
  `on_created`, `on_deleted`, `on_moved` and `handleFsEvent`;
* `src/process/process_monitor.py` — the process watcher
  (`ProcessMonitor.is_suspicious_name`, `check_new_processes`,
  `check_resource_usage`), modelled by the identically named functions;
* `src/network/alert_system.py` — the multi-channel alert sink
  (`AlertSystem.send_alert`), modelled in the `Except` monad so that an
  uncaught channel exception would really abort the rest of the dispatch.

Timestamps handled by the port-scan detector are modelled as natural
numbers (wall-clock seconds); the file monitor's sub-second deduplication
window uses rationals.  Machine-level side effects (log files, sounds,
popups) are modelled as values accumulated in explicit state records.
-/

/-! ### Port-scan detector (`src/network/packet_monitor.py`) -/

/-- Number of distinct destination ports from one source that triggers a
port-scan alert (source: `PacketMonitor.port_scan_threshold = 5`). -/
def port_scan_threshold : ℕ := 5

/-- Length in seconds of the port-scan tracking window
(source: `PacketMonitor.time_window = 10`). -/
def time_window : ℕ := 10

/-- Per-source tracking state of the scan detector, one entry of
`PacketMonitor.scan_tracker`: a `syn_count` field (never read), the set of
distinct destination ports seen, and the first-seen / last-seen
timestamps (`None` before the first packet from that source). -/
structure ScanEntry where
  synCount : ℕ
  ports : Finset ℕ
  firstSeen : Option ℕ
  lastSeen : Option ℕ
deriving DecidableEq

/-- The `defaultdict` initial value of `PacketMonitor.scan_tracker`. -/
def initEntry : ScanEntry := ⟨0, ∅, none, none⟩

/-- One call of `PacketMonitor.detect_port_scan`, restricted to the state
of the calling source.  Faithful to the source order: set `first_seen` if
unset, update `last_seen`, add the port, reset the whole entry if the
window has expired, then fire (and clear ports / move `first_seen` to
`now`) once the distinct-port count reaches the threshold.  The optional
result carries the alert payload `(unique_ports, time_span, ports_list)`
with `ports_list` sorted as by Python's `sorted`. -/
def scanEntryStep (e : ScanEntry) (dstPort now : ℕ) :
    ScanEntry × Option (ℕ × ℕ × List ℕ) :=
  let fs := e.firstSeen.getD now
  let e1 : ScanEntry :=
    { e with firstSeen := some fs, lastSeen := some now,
             ports := insert dstPort e.ports }
  let e2 : ScanEntry :=
    if time_window < now - fs then
      { synCount := 0, ports := {dstPort},
        firstSeen := some now, lastSeen := some now }
    else e1
  if port_scan_threshold ≤ e2.ports.card then
    ({ e2 with ports := ∅, firstSeen := some now },
     some (e2.ports.card, now - (e2.firstSeen.getD now), e2.ports.sort (· ≤ ·)))
  else (e2, none)

/-- One observed SYN/UDP packet handed to `detect_port_scan`. -/
structure ScanCall where
  src : String
  dst : String
  dstPort : ℕ
  protocol : String
  time : ℕ
deriving DecidableEq, Repr

/-- The PORT_SCAN alert assembled in `detect_port_scan`'s `log_alert`
call: source, target, distinct-port count, elapsed seconds, the sorted
port list, the displayed list capped at 10 entries, and the protocol. -/
structure PortScanAlert where
  src : String
  dst : String
  uniquePorts : ℕ
  timeSpan : ℕ
  portsList : List ℕ
  portsDisplay : List ℕ
  protocol : String
deriving DecidableEq, Repr

/-- The scan tracker: `PacketMonitor.scan_tracker`, a dictionary from
source identity to tracking entry with `initEntry` as default. -/
def ScanTracker : Type := String → ScanEntry

/-- Fresh tracker of a newly constructed `PacketMonitor`. -/
def initTracker : ScanTracker := fun _ => initEntry

/-- `PacketMonitor.detect_port_scan` on the whole tracker: step the
calling source's entry and decorate any alert payload. -/
def detect_port_scan (tr : ScanTracker) (c : ScanCall) :
    ScanTracker × Option PortScanAlert :=
  let r := scanEntryStep (tr c.src) c.dstPort c.time
  (Function.update tr c.src r.1,
   r.2.map fun x => ⟨c.src, c.dst, x.1, x.2.1, x.2.2, x.2.2.take 10, c.protocol⟩)

/-- Run a sequence of `detect_port_scan` calls, accumulating the emitted
alerts in order. -/
def runScan : ScanTracker → List ScanCall → ScanTracker × List PortScanAlert
  | tr, [] => (tr, [])
  | tr, c :: cs =>
    ((runScan (detect_port_scan tr c).1 cs).1,
     ((detect_port_scan tr c).2.toList ++ (runScan (detect_port_scan tr c).1 cs).2))

/-- Entry-level run of the detector for a single source: a list of
(destination port, timestamp) pairs. -/
def runScanEntry : ScanEntry → List (ℕ × ℕ) → ScanEntry × List (ℕ × ℕ × List ℕ)
  | e, [] => (e, [])
  | e, q :: qs =>
    ((runScanEntry (scanEntryStep e q.1 q.2).1 qs).1,
     ((scanEntryStep e q.1 q.2).2.toList ++
      (runScanEntry (scanEntryStep e q.1 q.2).1 qs).2))

/-- Build the call sequence of one source sending to the given
(port, time) pairs. -/
def mkScanCalls (src dst proto : String) (ps : List (ℕ × ℕ)) : List ScanCall :=
  ps.map fun q => ⟨src, dst, q.1, proto, q.2⟩

/-! Basic step lemmas for the scan detector. -/

lemma scanEntryStep_fresh (p t : ℕ) :
    scanEntryStep initEntry p t = (⟨0, {p}, some t, some t⟩, none) := by
  simp [scanEntryStep, initEntry, port_scan_threshold, time_window]

lemma scanEntryStep_quiet (e : ScanEntry) (p now t0 : ℕ)
    (hfs : e.firstSeen = some t0) (hwin : now - t0 ≤ time_window)
    (hnot : p ∉ e.ports) (hcard : e.ports.card + 1 < port_scan_threshold) :
    scanEntryStep e p now =
      ({ e with ports := insert p e.ports, firstSeen := some t0,
                lastSeen := some now }, none) := by
  have hw : ¬ (time_window < now - t0) := by omega
  have hc : ¬ (port_scan_threshold ≤ (insert p e.ports).card) := by
    rw [Finset.card_insert_of_not_mem hnot]; omega
  simp [scanEntryStep, hfs, hw, hc]

lemma scanEntryStep_alert (e : ScanEntry) (p now t0 : ℕ)
    (hfs : e.firstSeen = some t0) (hwin : now - t0 ≤ time_window)
    (hnot : p ∉ e.ports) (hcard : e.ports.card + 1 = port_scan_threshold) :
    scanEntryStep e p now =
      (⟨e.synCount, ∅, some now, some now⟩,
       some (port_scan_threshold, now - t0,
             (insert p e.ports).sort (· ≤ ·))) := by
  have hw : ¬ (time_window < now - t0) := by omega
  have hc : port_scan_threshold ≤ (insert p e.ports).card := by
    rw [Finset.card_insert_of_not_mem hnot]; omega
  simp [scanEntryStep, hfs, hw, hc, Finset.card_insert_of_not_mem hnot, hcard]

lemma scanEntryStep_expired (e : ScanEntry) (p now t0 : ℕ)
    (hfs : e.firstSeen = some t0) (hwin : time_window < now - t0) :
    scanEntryStep e p now = (⟨0, {p}, some now, some now⟩, none) := by
  have hc : ¬ (port_scan_threshold ≤ ({p} : Finset ℕ).card) := by
    simp [port_scan_threshold]
  simp [scanEntryStep, hfs, hwin, hc, port_scan_threshold]

lemma scanEntryStep_card_lt (e : ScanEntry) (p now : ℕ) :
    ((scanEntryStep e p now).1).ports.card < port_scan_threshold := by
  unfold scanEntryStep
  dsimp only
  split_ifs with h1 h2 h3
  · simp [port_scan_threshold]
  · exact lt_of_not_le h2
  · simp [port_scan_threshold]
  · exact lt_of_not_le h3

/-- The step function keeps every entry's distinct-port set strictly
below the threshold, hence so does any run. -/
lemma runScan_card_lt (calls : List ScanCall) :
    ∀ tr : ScanTracker,
      (∀ s, (tr s).ports.card < port_scan_threshold) →
      ∀ s, ((runScan tr calls).1 s).ports.card < port_scan_threshold := by
  induction calls with
  | nil => intro tr h s; exact h s
  | cons c cs ih =>
    intro tr h s
    apply ih
    intro s'
    by_cases hs : s' = c.src
    · subst hs
      simp only [detect_port_scan, Function.update_same]
      exact scanEntryStep_card_lt _ _ _
    · simp only [detect_port_scan, Function.update_noteq hs]
      exact h s'

/-- C10: after any sequence of `detect_port_scan` calls starting from the
empty tracker, every tracked source's distinct-port set has size strictly
below the port-scan threshold: reaching the threshold inside a call
always alerts and resets within that same call, so an over-threshold port
set is never left resident between calls. -/
theorem C10_tracker_ports_below_threshold (calls : List ScanCall) (s : String) :
    ((runScan initTracker calls).1 s).ports.card < port_scan_threshold := by
  refine runScan_card_lt calls initTracker ?_ s
  intro s'
  simp [initTracker, initEntry, port_scan_threshold]

/-! Further step lemmas used by the reset claim. -/

lemma scanEntryStep_fired (e : ScanEntry) (p now : ℕ) (x : ℕ × ℕ × List ℕ)
    (h : (scanEntryStep e p now).2 = some x) :
    (scanEntryStep e p now).1.ports = ∅ ∧
    (scanEntryStep e p now).1.firstSeen = some now := by
  unfold scanEntryStep at h ⊢
  dsimp only at h ⊢
  split_ifs at h ⊢ <;> simp_all

lemma scanEntryStep_from_empty (e : ScanEntry) (p now : ℕ)
    (h : e.ports = ∅) :
    (scanEntryStep e p now).1.ports = {p} ∧
    (scanEntryStep e p now).2 = none := by
  unfold scanEntryStep
  dsimp only
  rw [h]
  split_ifs with h1 h2 h3 <;> simp_all [port_scan_threshold]

/-- C3: the per-source tracking state resets in exactly two situations,
forgetting accumulated ports both times.  (1) After an alert fires for a
call, the source's port set is empty and `first_seen` is the call time,
and any follow-up call for that source — even one repeating an
already-counted port — leaves exactly that one port tracked (counted as
new) and fires nothing.  (2) If the elapsed time since `first_seen`
exceeds the window, the entry is reset around the current call's port and
no alert fires from the pre-reset ports.  (3) In every other situation no
ports are forgotten: a quiet, unexpired call just inserts its port. -/
theorem C3_tracker_reset (tr : ScanTracker) (c : ScanCall) :
    (∀ a : PortScanAlert, (detect_port_scan tr c).2 = some a →
       ((detect_port_scan tr c).1 c.src).ports = ∅ ∧
       ((detect_port_scan tr c).1 c.src).firstSeen = some c.time ∧
       ∀ c' : ScanCall, c'.src = c.src →
         ((detect_port_scan (detect_port_scan tr c).1 c').1 c'.src).ports
             = {c'.dstPort} ∧
         (detect_port_scan (detect_port_scan tr c).1 c').2 = none)
    ∧ (∀ t0 : ℕ, (tr c.src).firstSeen = some t0 →
         time_window < c.time - t0 →
         (detect_port_scan tr c).1 c.src
             = ⟨0, {c.dstPort}, some c.time, some c.time⟩ ∧
         (detect_port_scan tr c).2 = none)
    ∧ (∀ t0 : ℕ, (tr c.src).firstSeen = some t0 →
         c.time - t0 ≤ time_window →
         (detect_port_scan tr c).2 = none →
         ((detect_port_scan tr c).1 c.src).ports
             = insert c.dstPort ((tr c.src).ports) ∧
         ((detect_port_scan tr c).1 c.src).firstSeen = some t0) := by
  refine ⟨?_, ?_, ?_⟩
  · intro a ha
    have hx : ∃ x, (scanEntryStep (tr c.src) c.dstPort c.time).2 = some x := by
      simp only [detect_port_scan] at ha
      cases hh : (scanEntryStep (tr c.src) c.dstPort c.time).2 with
      | none => rw [hh] at ha; simp at ha
      | some x => exact ⟨x, rfl⟩
    obtain ⟨x, hx⟩ := hx
    have hres := scanEntryStep_fired (tr c.src) c.dstPort c.time x hx
    simp only [detect_port_scan, Function.update_same]
    refine ⟨hres.1, hres.2, ?_⟩
    intro c' hsrc
    have hentry :
        (Function.update tr c.src (scanEntryStep (tr c.src) c.dstPort c.time).1) c'.src
          = (scanEntryStep (tr c.src) c.dstPort c.time).1 := by
      rw [hsrc, Function.update_same]
    have hnext := scanEntryStep_from_empty
      ((scanEntryStep (tr c.src) c.dstPort c.time).1) c'.dstPort c'.time hres.1
    constructor
    · simp only [detect_port_scan, Function.update_same, hentry]
      exact hnext.1
    · simp [detect_port_scan, hentry, hnext.2]
  · intro t0 hfs hexp
    have hstep := scanEntryStep_expired (tr c.src) c.dstPort c.time t0 hfs hexp
    constructor
    · simp only [detect_port_scan, Function.update_same, hstep]
    · simp [detect_port_scan, hstep]
  · intro t0 hfs hwin hnone
    have hnoexp : ¬ (time_window < c.time - t0) := by omega
    simp only [detect_port_scan, Function.update_same] at hnone ⊢
    unfold scanEntryStep at hnone ⊢
    dsimp only at hnone ⊢
    rw [hfs] at hnone ⊢
    simp only [Option.getD_some] at hnone ⊢
    rw [if_neg hnoexp] at hnone ⊢
    split_ifs at hnone ⊢ with h1
    · simp at hnone
    · exact ⟨rfl, rfl⟩

/-- Concrete tracker used by the C3 witness: source 10.0.0.5 has already
been seen on four distinct ports at time 0. -/
def trW : ScanTracker := fun s =>
  if s = "10.0.0.5" then ⟨0, ({22, 80, 443, 3306} : Finset ℕ), some 0, some 0⟩
  else initEntry

/-- Fifth distinct port from 10.0.0.5 at time 4: fires the alert. -/
def cW : ScanCall := ⟨"10.0.0.5", "192.168.1.10", 8080, "TCP", 4⟩

/-- Follow-up call repeating the already-counted port 22. -/
def cW2 : ScanCall := ⟨"10.0.0.5", "192.168.1.10", 22, "TCP", 5⟩

/-- Tracker used for the expiry part of the C3 witness. -/
def trExp : ScanTracker := fun s =>
  if s = "src" then ⟨0, ({1, 2} : Finset ℕ), some 0, some 0⟩ else initEntry

/-- Call from `src` after the 10-second window has passed. -/
def cExp : ScanCall := ⟨"src", "d", 7, "TCP", 15⟩

theorem C3_tracker_reset_witness :
    (((detect_port_scan trW cW).1 "10.0.0.5").ports = ∅ ∧
     ((detect_port_scan trW cW).1 "10.0.0.5").firstSeen = some 4 ∧
     ((detect_port_scan (detect_port_scan trW cW).1 cW2).1 "10.0.0.5").ports
         = {22} ∧
     (detect_port_scan (detect_port_scan trW cW).1 cW2).2 = none) ∧
    ((detect_port_scan trExp cExp).1 "src" = ⟨0, {7}, some 15, some 15⟩ ∧
     (detect_port_scan trExp cExp).2 = none) := by
  have e1 : trW "10.0.0.5"
      = ⟨0, ({22, 80, 443, 3306} : Finset ℕ), some 0, some 0⟩ := rfl
  have halert := scanEntryStep_alert
    (⟨0, ({22, 80, 443, 3306} : Finset ℕ), some 0, some 0⟩ : ScanEntry)
    8080 4 0 rfl (by decide) (by decide) (by decide)
  have hsome : (detect_port_scan trW cW).2 =
      some ⟨"10.0.0.5", "192.168.1.10", port_scan_threshold, 4 - 0,
            ((insert 8080 ({22, 80, 443, 3306} : Finset ℕ)).sort (· ≤ ·)),
            ((insert 8080 ({22, 80, 443, 3306} : Finset ℕ)).sort (· ≤ ·)).take 10,
            "TCP"⟩ := by
    show (scanEntryStep (trW "10.0.0.5") 8080 4).2.map
        (fun x => (⟨"10.0.0.5", "192.168.1.10", x.1, x.2.1, x.2.2,
                    x.2.2.take 10, "TCP"⟩ : PortScanAlert)) = _
    rw [e1, halert]
    rfl
  have h1 := (C3_tracker_reset trW cW).1 _ hsome
  have h2 := (C3_tracker_reset trExp cExp).2.1 0 rfl (by decide)
  have h3 := h1.2.2 cW2 rfl
  exact ⟨⟨h1.1, h1.2.1, h3.1, h3.2⟩, h2⟩

/-! Run-level lemmas for the first-reach claim. -/

lemma runScanEntry_append (xs : List (ℕ × ℕ)) :
    ∀ (e : ScanEntry) (ys : List (ℕ × ℕ)),
      runScanEntry e (xs ++ ys) =
        ((runScanEntry (runScanEntry e xs).1 ys).1,
         (runScanEntry e xs).2 ++ (runScanEntry (runScanEntry e xs).1 ys).2) := by
  induction xs with
  | nil => intro e ys; simp [runScanEntry]
  | cons q qs ih =>
    intro e ys
    simp only [List.cons_append, runScanEntry, List.append_eq, ih,
      List.append_assoc]

lemma runScanEntry_quiet (ps : List (ℕ × ℕ)) :
    ∀ (e : ScanEntry) (t0 : ℕ), e.firstSeen = some t0 →
      (∀ q ∈ ps, q.2 - t0 ≤ time_window) →
      (∀ q ∈ ps, q.1 ∉ e.ports) →
      (ps.map Prod.fst).Nodup →
      e.ports.card + ps.length < port_scan_threshold →
      (runScanEntry e ps).2 = [] ∧
      (runScanEntry e ps).1.ports = e.ports ∪ (ps.map Prod.fst).toFinset ∧
      (runScanEntry e ps).1.firstSeen = some t0 := by
  induction ps with
  | nil => intro e t0 hfs _ _ _ _; simp [runScanEntry, hfs]
  | cons q qs ih =>
    intro e t0 hfs hwin hnot hnodup hcard
    simp only [List.length_cons] at hcard
    have hstep := scanEntryStep_quiet e q.1 q.2 t0 hfs
      (hwin q (by simp)) (hnot q (by simp)) (by omega)
    have hq : q.1 ∉ List.map Prod.fst qs := by
      simp only [List.map_cons, List.nodup_cons] at hnodup
      exact hnodup.1
    have ihr := ih { e with ports := insert q.1 e.ports,
                            firstSeen := some t0, lastSeen := some q.2 } t0
      rfl
      (fun q' hq' => hwin q' (by simp [hq']))
      (by
        intro q' hq'
        simp only [Finset.mem_insert, not_or]
        constructor
        · intro hcontra
          exact hq (hcontra ▸ List.mem_map_of_mem Prod.fst hq')
        · exact hnot q' (by simp [hq']))
      (by
        simp only [List.map_cons, List.nodup_cons] at hnodup
        exact hnodup.2)
      (by
        simp only [Finset.card_insert_of_not_mem (hnot q (by simp))]
        omega)
    refine ⟨?_, ?_, ?_⟩
    · simp only [runScanEntry, hstep, Option.toList_none, List.nil_append]
      exact ihr.1
    · simp only [runScanEntry, hstep]
      rw [ihr.2.1]
      simp only [List.map_cons, List.toFinset_cons, Finset.insert_union,
        Finset.union_insert]
    · simp only [runScanEntry, hstep]
      exact ihr.2.2

lemma runScanEntry_prefix_quiet (p0 : ℕ × ℕ) (qs : List (ℕ × ℕ))
    (hnodup : ((p0 :: qs).map Prod.fst).Nodup)
    (hwin : ∀ q ∈ (p0 :: qs), q.2 - p0.2 ≤ time_window)
    (hlen : (p0 :: qs).length ≤ port_scan_threshold - 1) :
    (runScanEntry initEntry (p0 :: qs)).2 = [] ∧
    (runScanEntry initEntry (p0 :: qs)).1.ports
        = ((p0 :: qs).map Prod.fst).toFinset ∧
    (runScanEntry initEntry (p0 :: qs)).1.firstSeen = some p0.2 := by
  have hfresh := scanEntryStep_fresh p0.1 p0.2
  have hq : p0.1 ∉ List.map Prod.fst qs := by
    simp only [List.map_cons, List.nodup_cons] at hnodup
    exact hnodup.1
  have hrest := runScanEntry_quiet qs (⟨0, {p0.1}, some p0.2, some p0.2⟩ : ScanEntry)
    p0.2 rfl
    (fun q' hq' => hwin q' (by simp [hq']))
    (by
      intro q' hq'
      simp only [Finset.mem_singleton]
      intro hcontra
      exact hq (hcontra ▸ List.mem_map_of_mem Prod.fst hq'))
    (by
      simp only [List.map_cons, List.nodup_cons] at hnodup
      exact hnodup.2)
    (by
      simp only [Finset.card_singleton, List.length_cons] at hlen ⊢
      simp only [port_scan_threshold] at hlen ⊢
      omega)
  refine ⟨?_, ?_, ?_⟩
  · simp only [runScanEntry, hfresh, Option.toList_none, List.nil_append]
    exact hrest.1
  · simp only [runScanEntry, hfresh]
    rw [hrest.2.1]
    rw [← LawfulSingleton.insert_emptyc_eq p0.1, Finset.insert_union,
      Finset.empty_union, List.map_cons, List.toFinset_cons]
  · simp only [runScanEntry, hfresh]
    exact hrest.2.2

lemma toList_map_comm {α β : Type} (o : Option α) (f : α → β) :
    (o.map f).toList = o.toList.map f := by
  cases o <;> rfl

lemma runScanEntry_single (e : ScanEntry) (q : ℕ × ℕ) :
    runScanEntry e [q] =
      ((scanEntryStep e q.1 q.2).1, (scanEntryStep e q.1 q.2).2.toList) := by
  simp [runScanEntry]

lemma runScanEntry_first_alert (p0 : ℕ × ℕ) (rest : List (ℕ × ℕ))
    (hlen : (p0 :: rest).length = port_scan_threshold)
    (hnodup : ((p0 :: rest).map Prod.fst).Nodup)
    (hwin : ∀ q ∈ (p0 :: rest), q.2 - p0.2 ≤ time_window) :
    ∃ lastq : ℕ × ℕ, (p0 :: rest).getLast? = some lastq ∧
      (runScanEntry initEntry (p0 :: rest)).2 =
        [(port_scan_threshold, lastq.2 - p0.2,
          (((p0 :: rest).map Prod.fst).toFinset).sort (· ≤ ·))] ∧
      (runScanEntry initEntry (p0 :: rest)).1.ports = ∅ := by
  rcases List.eq_nil_or_concat rest with hnil | ⟨mid, lastq, hmid⟩
  · subst hnil
    simp [port_scan_threshold] at hlen
  rw [List.concat_eq_append] at hmid
  subst hmid
  have hmap : ((p0 :: (mid ++ [lastq])).map Prod.fst)
      = p0.1 :: (mid.map Prod.fst ++ [lastq.1]) := by simp
  rw [hmap] at hnodup
  have hn1 : p0.1 ∉ mid.map Prod.fst ++ [lastq.1] :=
    (List.nodup_cons.mp hnodup).1
  have hn2 : (mid.map Prod.fst ++ [lastq.1]).Nodup :=
    (List.nodup_cons.mp hnodup).2
  have hlast_notin : lastq.1 ∉ mid.map Prod.fst := by
    intro hmem
    exact absurd (by simp) (List.disjoint_of_nodup_append hn2 hmem)
  have hlast_ne : lastq.1 ≠ p0.1 := by
    intro he
    exact hn1 (by simp [← he])
  have hmid_nodup : (p0.1 :: mid.map Prod.fst).Nodup := by
    rw [List.nodup_cons]
    refine ⟨?_, hn2.of_append_left⟩
    intro hc
    exact hn1 (List.mem_append_left _ hc)
  have hmidlen : mid.length = 3 := by
    simp [port_scan_threshold] at hlen
    omega
  have hquiet := runScanEntry_prefix_quiet p0 mid
    (by simpa using hmid_nodup)
    (fun q hq => hwin q (by
      rcases List.mem_cons.mp hq with h | h
      · simp [h]
      · exact List.mem_cons_of_mem _ (List.mem_append_left _ h)))
    (by simp [hmidlen, port_scan_threshold])
  have hEports : (runScanEntry initEntry (p0 :: mid)).1.ports
      = (p0.1 :: mid.map Prod.fst).toFinset := by
    rw [hquiet.2.1]
    simp
  have hcardE : (runScanEntry initEntry (p0 :: mid)).1.ports.card + 1
      = port_scan_threshold := by
    rw [hEports, List.toFinset_card_of_nodup hmid_nodup]
    simp [hmidlen, port_scan_threshold]
  have hnotE : lastq.1 ∉ (runScanEntry initEntry (p0 :: mid)).1.ports := by
    rw [hEports]
    simp only [List.mem_toFinset, List.mem_cons, not_or]
    exact ⟨hlast_ne, hlast_notin⟩
  have hstep := scanEntryStep_alert (runScanEntry initEntry (p0 :: mid)).1
    lastq.1 lastq.2 p0.2 hquiet.2.2
    (hwin lastq (by simp))
    hnotE hcardE
  have hsets : insert lastq.1 (runScanEntry initEntry (p0 :: mid)).1.ports
      = (((p0 :: (mid ++ [lastq])).map Prod.fst).toFinset) := by
    rw [hEports, hmap, List.toFinset_cons, List.toFinset_cons,
      List.toFinset_append, List.toFinset_cons, List.toFinset_nil,
      Finset.union_insert, Finset.union_empty, Finset.Insert.comm]
  have hsplit : (p0 :: (mid ++ [lastq])) = (p0 :: mid) ++ [lastq] := rfl
  refine ⟨lastq, ?_, ?_, ?_⟩
  · rw [hsplit, List.getLast?_concat]
  · rw [hsplit, runScanEntry_append, hquiet.1, runScanEntry_single, hstep]
    simp only [List.nil_append, Option.toList_some]
    rw [hsets]
    rfl
  · rw [hsplit, runScanEntry_append, runScanEntry_single, hstep]

/-- A run of single-source calls acts on that source's entry exactly as
the entry-level run, decorating each emitted payload. -/
lemma runScan_mkScanCalls (ps : List (ℕ × ℕ)) :
    ∀ (tr : ScanTracker) (src dst proto : String),
      (runScan tr (mkScanCalls src dst proto ps)).1
          = Function.update tr src (runScanEntry (tr src) ps).1 ∧
      (runScan tr (mkScanCalls src dst proto ps)).2
          = (runScanEntry (tr src) ps).2.map
              (fun x => (⟨src, dst, x.1, x.2.1, x.2.2, x.2.2.take 10,
                          proto⟩ : PortScanAlert)) := by
  induction ps with
  | nil =>
    intro tr src dst proto
    simp [mkScanCalls, runScan, runScanEntry, Function.update_eq_self]
  | cons q qs ih =>
    intro tr src dst proto
    have hcall : mkScanCalls src dst proto (q :: qs)
        = (⟨src, dst, q.1, proto, q.2⟩ : ScanCall)
            :: mkScanCalls src dst proto qs := by
      simp [mkScanCalls]
    have hdet : detect_port_scan tr (⟨src, dst, q.1, proto, q.2⟩ : ScanCall)
        = (Function.update tr src (scanEntryStep (tr src) q.1 q.2).1,
           (scanEntryStep (tr src) q.1 q.2).2.map
             (fun x => (⟨src, dst, x.1, x.2.1, x.2.2, x.2.2.take 10,
                         proto⟩ : PortScanAlert))) := rfl
    have hupd : (Function.update tr src (scanEntryStep (tr src) q.1 q.2).1) src
        = (scanEntryStep (tr src) q.1 q.2).1 := Function.update_same _ _ _
    have ihr := ih (Function.update tr src (scanEntryStep (tr src) q.1 q.2).1)
      src dst proto
    rw [hupd] at ihr
    constructor
    · rw [hcall]
      show (runScan (detect_port_scan tr _).1 _).1 = _
      rw [hdet, ihr.1, Function.update_idem]
      rfl
    · rw [hcall]
      show ((detect_port_scan tr _).2.toList
          ++ (runScan (detect_port_scan tr _).1 _).2) = _
      rw [hdet, ihr.2]
      show ((scanEntryStep (tr src) q.1 q.2).2.map _).toList ++ _ = _
      rw [toList_map_comm]
      rw [show runScanEntry (tr src) (q :: qs)
            = ((runScanEntry (scanEntryStep (tr src) q.1 q.2).1 qs).1,
               ((scanEntryStep (tr src) q.1 q.2).2.toList ++
                (runScanEntry (scanEntryStep (tr src) q.1 q.2).1 qs).2)) from rfl]
      rw [List.map_append]

/-- C1: for every sequence of `detect_port_scan` calls from one source
with pairwise-distinct destination ports, every call within the time
window of the first call, starting from the empty tracker: no alert is
emitted on any call before the distinct-port count reaches the threshold
(every prefix of fewer than 5 calls yields no alert), and if the sequence
reaches 5 calls, exactly one PORT_SCAN alert is emitted on the fifth
call, listing all five scanned ports in sorted order. -/
theorem C1_scan_first_reach (src dst proto : String) (p0 : ℕ × ℕ)
    (rest : List (ℕ × ℕ))
    (hnodup : ((p0 :: rest).map Prod.fst).Nodup)
    (hwin : ∀ q ∈ (p0 :: rest), q.2 - p0.2 ≤ time_window) :
    (∀ k, k < port_scan_threshold →
       (runScan initTracker
           (mkScanCalls src dst proto ((p0 :: rest).take k))).2 = []) ∧
    (port_scan_threshold ≤ (p0 :: rest).length →
       ∃ lastq : ℕ × ℕ,
         ((p0 :: rest).take port_scan_threshold).getLast? = some lastq ∧
         (runScan initTracker (mkScanCalls src dst proto
             ((p0 :: rest).take port_scan_threshold))).2 =
           [⟨src, dst, port_scan_threshold, lastq.2 - p0.2,
             ((((p0 :: rest).take port_scan_threshold).map
                 Prod.fst).toFinset).sort (· ≤ ·),
             (((((p0 :: rest).take port_scan_threshold).map
                 Prod.fst).toFinset).sort (· ≤ ·)).take 10,
             proto⟩]) := by
  have hsub : ∀ k, ((p0 :: rest).take k).Sublist (p0 :: rest) :=
    fun k => List.take_sublist k _
  have hnodup_take : ∀ k, (((p0 :: rest).take k).map Prod.fst).Nodup :=
    fun k => List.Nodup.sublist ((hsub k).map Prod.fst) hnodup
  have hwin_take : ∀ k, ∀ q ∈ (p0 :: rest).take k, q.2 - p0.2 ≤ time_window :=
    fun k q hq => hwin q (List.mem_of_mem_take hq)
  constructor
  · intro k hk
    match k, hk with
    | 0, _ => simp [mkScanCalls, runScan]
    | (j + 1), hk =>
      rw [List.take_succ_cons]
      rw [(runScan_mkScanCalls (p0 :: rest.take j) initTracker src dst proto).2]
      have hq := runScanEntry_prefix_quiet p0 (rest.take j)
        (by
          have := hnodup_take (j + 1)
          rwa [List.take_succ_cons] at this)
        (by
          intro q hqm
          exact hwin_take (j + 1) q (by rw [List.take_succ_cons]; exact hqm))
        (by
          simp only [List.length_cons, port_scan_threshold] at hk ⊢
          have := List.length_take_le j rest
          omega)
      show ((runScanEntry (initTracker src) (p0 :: rest.take j)).2.map _) = []
      rw [show initTracker src = initEntry from rfl, hq.1]
      rfl
  · intro hlen
    have hlen4 : 4 ≤ rest.length := by
      simp only [List.length_cons, port_scan_threshold] at hlen
      omega
    have htake : (p0 :: rest).take port_scan_threshold
        = p0 :: rest.take 4 := by
      simp only [port_scan_threshold, List.take_succ_cons]
    rw [htake]
    have hlen5 : (p0 :: rest.take 4).length = port_scan_threshold := by
      simp only [List.length_cons, List.length_take, port_scan_threshold]
      omega
    have hfa := runScanEntry_first_alert p0 (rest.take 4) hlen5
      (by
        have := hnodup_take port_scan_threshold
        rwa [htake] at this)
      (by
        intro q hqm
        exact hwin_take port_scan_threshold q (by rw [htake]; exact hqm))
    obtain ⟨lastq, hlast, halerts, _⟩ := hfa
    refine ⟨lastq, hlast, ?_⟩
    rw [(runScan_mkScanCalls (p0 :: rest.take 4) initTracker src dst proto).2]
    rw [show initTracker src = initEntry from rfl, halerts]
    rfl

theorem C1_scan_first_reach_witness :
    (runScan initTracker (mkScanCalls "10.0.0.5" "192.168.1.10" "TCP"
        (((22, 0) :: [(80, 1), (443, 2), (3306, 3), (8080, 4)]).take 4))).2
      = [] ∧
    (runScan initTracker (mkScanCalls "10.0.0.5" "192.168.1.10" "TCP"
        (((22, 0) :: [(80, 1), (443, 2), (3306, 3), (8080, 4)]).take
          port_scan_threshold))).2
      = [⟨"10.0.0.5", "192.168.1.10", port_scan_threshold, 4,
          [22, 80, 443, 3306, 8080], [22, 80, 443, 3306, 8080], "TCP"⟩] := by
  have hsort : (((((22, 0) :: [(80, 1), (443, 2), (3306, 3), (8080, 4)]).take
        port_scan_threshold).map Prod.fst).toFinset).sort (· ≤ ·)
      = [22, 80, 443, 3306, 8080] := by
    have hset : ((((22, 0) :: [(80, 1), (443, 2), (3306, 3), (8080, 4)]).take
          port_scan_threshold).map Prod.fst).toFinset
        = insert 22 (insert 80 (insert 443 (insert 3306 ({8080} : Finset ℕ))))
        := by decide
    rw [hset,
      Finset.sort_insert (· ≤ ·) (by decide) (by decide),
      Finset.sort_insert (· ≤ ·) (by decide) (by decide),
      Finset.sort_insert (· ≤ ·) (by decide) (by decide),
      Finset.sort_insert (· ≤ ·) (by decide) (by decide),
      Finset.sort_singleton]
  have H := C1_scan_first_reach "10.0.0.5" "192.168.1.10" "TCP" (22, 0)
    [(80, 1), (443, 2), (3306, 3), (8080, 4)] (by decide) (by decide)
  refine ⟨H.1 4 (by decide), ?_⟩
  obtain ⟨lastq, hl, ha⟩ := H.2 (by decide)
  have hconc : (((22, 0) :: [(80, 1), (443, 2), (3306, 3),
      (8080, 4)]).take port_scan_threshold).getLast?
      = some ((8080 : ℕ), (4 : ℕ)) := rfl
  rw [hconc] at hl
  have hlq : lastq = ((8080 : ℕ), (4 : ℕ)) := (Option.some.inj hl).symm
  subst hlq
  rw [ha, hsort]
  rfl

/-! ### Connection classifier (`src/network/monitor.py`) -/

/-- Python `str.startswith`, modelled on the character list so it is
kernel-computable: used by the source as `remote_ip.startswith('127.')`. -/
def startswith (s pre : String) : Bool :=
  pre.toList.isPrefixOf s.toList

/-- One endpoint as reported by `psutil`: `addr.ip` and `addr.port`. -/
structure Addr where
  ip : String
  port : ℕ
deriving DecidableEq, Repr

/-- One connection tuple from `psutil.net_connections`: optional local
and remote endpoints, status string, owning pid (`None` if unknown). -/
structure Conn where
  laddr : Option Addr
  raddr : Option Addr
  status : String
  pid : Option ℕ
deriving DecidableEq, Repr

/-- Address rendering used by `analyze_connection`: `ip:port` or `N/A`. -/
def addrRepr : Option Addr → String
  | some a => a.ip ++ ":" ++ toString a.port
  | none => "N/A"

/-- Python prints a missing pid as `None`. -/
def pidRepr : Option ℕ → String
  | some p => toString p
  | none => "None"

/-- Process-name resolution of `analyze_connection`: `psutil.Process`
lookup (the ambient process table is the function argument), falling
back to `"Unknown"` when the pid is absent or the lookup raises. -/
def resolveProcessName (procName : ℕ → Option String) : Option ℕ → String
  | some p => (procName p).getD "Unknown"
  | none => "Unknown"

/-- `NetworkMonitor.is_inbound_connection`: established status, both
addresses present, local ip among this machine's ips, remote ip not
among them and not starting with `127.`. -/
def is_inbound_connection (localIPs : List String) (c : Conn) : Bool :=
  if c.status = "ESTABLISHED" then
    match c.laddr, c.raddr with
    | some l, some r =>
      if l.ip ∈ localIPs ∧ r.ip ∉ localIPs then
        ! startswith r.ip "127."
      else false
    | _, _ => false
  else false

/-- The `conn_info` evidence line built by `analyze_connection`. -/
def connInfo (procName : ℕ → Option String) (c : Conn) : String :=
  "Local: " ++ addrRepr c.laddr ++ " | Remote: " ++ addrRepr c.raddr ++
  " | Status: " ++ c.status ++ " | Process: " ++
  resolveProcessName procName c.pid ++ " (PID: " ++ pidRepr c.pid ++ ")"

/-- Result of analyzing one connection: the evidence-log line (always
produced), an optional THREAT alert message, and an optional
listening-port console note. -/
structure ConnResult where
  logLine : String
  threat : Option String
  listening : Option String
deriving DecidableEq, Repr

/-- `NetworkMonitor.analyze_connection`: log the connection, raise a
THREAT alert when `is_inbound_connection` holds, otherwise note a
listening port when the status is LISTEN. -/
def analyze_connection (localIPs : List String)
    (procName : ℕ → Option String) (c : Conn) : ConnResult :=
  let info := connInfo procName c
  let processName := resolveProcessName procName c.pid
  if is_inbound_connection localIPs c then
    { logLine := info,
      threat := some ("INBOUND CONNECTION DETECTED - Remote IP: " ++
        (match c.raddr with | some r => r.ip | none => "None") ++
        " attempting to connect to your machine at " ++ addrRepr c.laddr ++
        " | Process: " ++ processName ++ " (PID: " ++ pidRepr c.pid ++ ")"),
      listening := none }
  else if c.status = "LISTEN" then
    { logLine := info, threat := none,
      listening := some (addrRepr c.laddr) }
  else
    { logLine := info, threat := none, listening := none }

/-- The connection identifier built in `NetworkMonitor.monitor`;
`none` models the `continue` taken when no local address exists. -/
def connId (c : Conn) : Option String :=
  match c.laddr, c.raddr with
  | some l, some r => some (l.ip ++ ":" ++ toString l.port ++ "-" ++
      r.ip ++ ":" ++ toString r.port ++ "-" ++ c.status)
  | some l, none => some (l.ip ++ ":" ++ toString l.port ++ "-" ++ c.status)
  | none, _ => none

/-- Monitor-loop state: the `seen_connections` identity set and the two
append-only sinks (`all_connections.log` lines and THREAT alerts). -/
structure MonitorState where
  seen : List String
  evidence : List String
  alerts : List String
deriving DecidableEq, Repr

/-- State at `NetworkMonitor.monitor` start-up. -/
def initMonitorState : MonitorState := ⟨[], [], []⟩

/-- Body of the per-connection step of `NetworkMonitor.monitor`: skip a
connection without a local address, skip an identity already seen,
otherwise record it as seen and analyze it (which logs the evidence
line and possibly alerts). -/
def processConn (localIPs : List String) (procName : ℕ → Option String)
    (st : MonitorState) (c : Conn) : MonitorState :=
  match connId c with
  | none => st
  | some cid =>
    if cid ∈ st.seen then st
    else
      let r := analyze_connection localIPs procName c
      { seen := cid :: st.seen,
        evidence := st.evidence ++ [r.logLine],
        alerts := st.alerts ++ r.threat.toList }

/-- One poll of `psutil.net_connections` processed in list order. -/
def processPoll (localIPs : List String) (procName : ℕ → Option String)
    (st : MonitorState) (conns : List Conn) : MonitorState :=
  conns.foldl (processConn localIPs procName) st

/-- The monitor loop over a finite sequence of polls. -/
def runMonitor (localIPs : List String) (procName : ℕ → Option String)
    (st : MonitorState) (polls : List (List Conn)) : MonitorState :=
  polls.foldl (processPoll localIPs procName) st

lemma analyze_connection_logLine (localIPs : List String)
    (procName : ℕ → Option String) (c : Conn) :
    (analyze_connection localIPs procName c).logLine = connInfo procName c := by
  unfold analyze_connection
  dsimp only
  split_ifs <;> rfl

lemma is_inbound_iff (localIPs : List String) (c : Conn) :
    is_inbound_connection localIPs c = true ↔
      (c.status = "ESTABLISHED" ∧ ∃ l r : Addr,
        c.laddr = some l ∧ c.raddr = some r ∧
        l.ip ∈ localIPs ∧ r.ip ∉ localIPs ∧
        startswith r.ip "127." = false) := by
  unfold is_inbound_connection
  by_cases hst : c.status = "ESTABLISHED"
  · rw [if_pos hst]
    cases hla : c.laddr with
    | none => simp [hla, hst]
    | some l =>
      cases hra : c.raddr with
      | none => simp [hla, hra, hst]
      | some r =>
        dsimp only
        by_cases hmem : l.ip ∈ localIPs ∧ r.ip ∉ localIPs
        · rw [if_pos hmem]
          simp only [Bool.not_eq_true', hst, true_and, hla, hra,
            Option.some.injEq]
          constructor
          · intro hsw
            exact ⟨l, r, rfl, rfl, hmem.1, hmem.2, hsw⟩
          · rintro ⟨l', r', hl', hr', _, _, hsw⟩
            subst hl'
            subst hr'
            exact hsw
        · rw [if_neg hmem]
          simp only [Bool.false_eq_true, false_iff, hst, true_and, hla, hra,
            Option.some.injEq, not_exists]
          rintro l' r' ⟨hl', hr', hmem1, hmem2, _⟩
          subst hl'
          subst hr'
          exact hmem ⟨hmem1, hmem2⟩
  · rw [if_neg hst]
    simp [hst]

lemma analyze_threat_iff (localIPs : List String)
    (procName : ℕ → Option String) (c : Conn) :
    (analyze_connection localIPs procName c).threat.isSome = true ↔
      is_inbound_connection localIPs c = true := by
  unfold analyze_connection
  dsimp only
  by_cases hib : is_inbound_connection localIPs c = true
  · rw [if_pos hib]
    simp [hib]
  · rw [if_neg hib]
    split_ifs <;> simp [hib]

/-- C2: a connection raises a THREAT alert (is classified inbound) if
and only if its status is established, both addresses are present, the
local address is one of this machine's ips, the remote address is not,
and the remote address does not start with the loopback prefix `127.`;
in particular a loopback remote address never yields a THREAT alert. -/
theorem C2_inbound_threat_iff (localIPs : List String)
    (procName : ℕ → Option String) (c : Conn) :
    ((analyze_connection localIPs procName c).threat.isSome = true ↔
      (c.status = "ESTABLISHED" ∧ ∃ l r : Addr,
        c.laddr = some l ∧ c.raddr = some r ∧
        l.ip ∈ localIPs ∧ r.ip ∉ localIPs ∧
        startswith r.ip "127." = false)) ∧
    (∀ r : Addr, c.raddr = some r → startswith r.ip "127." = true →
      (analyze_connection localIPs procName c).threat = none) := by
  have hiff := (analyze_threat_iff localIPs procName c).trans
    (is_inbound_iff localIPs c)
  refine ⟨hiff, ?_⟩
  intro r hr hsw
  cases hth : (analyze_connection localIPs procName c).threat with
  | none => rfl
  | some m =>
    have hs : (analyze_connection localIPs procName c).threat.isSome = true := by
      rw [hth]; rfl
    obtain ⟨_, l', r', _, hr', _, _, hfalse⟩ := hiff.mp hs
    rw [hr] at hr'
    cases Option.some.inj hr'
    rw [hsw] at hfalse
    exact absurd hfalse (by decide)

/-- Established inbound connection from the spec's concrete scenario. -/
def connEst : Conn :=
  ⟨some ⟨"192.168.1.10", 443⟩, some ⟨"203.0.113.7", 51422⟩,
   "ESTABLISHED", some 1234⟩

/-- Established connection whose remote address is loopback. -/
def connLoop : Conn :=
  ⟨some ⟨"192.168.1.10", 443⟩, some ⟨"127.0.0.1", 51000⟩,
   "ESTABLISHED", some 1234⟩

theorem C2_inbound_threat_iff_witness :
    (analyze_connection ["192.168.1.10"] (fun _ => none)
        connEst).threat.isSome = true ∧
    (analyze_connection ["192.168.1.10"] (fun _ => none)
        connLoop).threat = none := by
  constructor
  · exact (C2_inbound_threat_iff ["192.168.1.10"] (fun _ => none) connEst).1.mpr
      ⟨rfl, ⟨⟨"192.168.1.10", 443⟩, ⟨"203.0.113.7", 51422⟩, rfl, rfl,
        by decide, by decide, by decide⟩⟩
  · exact (C2_inbound_threat_iff ["192.168.1.10"] (fun _ => none) connLoop).2
      ⟨"127.0.0.1", 51000⟩ rfl (by decide)

/-- Connection used by the C7 counterexample and witness. -/
def cBoth : Conn :=
  ⟨some ⟨"1.2.3.4", 10⟩, some ⟨"5.6.7.8", 20⟩, "ESTABLISHED", none⟩

/-- C7 as stated is false: the monitor loop deduplicates by connection
identity before analyzing, and `log_connection` runs inside
`analyze_connection`, so a connection observed again on a later poll
produces no new evidence line.  Two polls both yielding the same
connection leave one evidence line, not two. -/
theorem C7_counterexample :
    ¬ (∀ (localIPs : List String) (procName : ℕ → Option String)
         (polls : List (List Conn)),
        (runMonitor localIPs procName initMonitorState polls).evidence.length
          = (polls.map List.length).sum) := by
  intro h
  have hinst := h [] (fun _ => none) [[cBoth], [cBoth]]
  have h1 : (runMonitor [] (fun _ => none) initMonitorState
      [[cBoth], [cBoth]]).evidence.length = 1 := rfl
  have h2 : (([[cBoth], [cBoth]] : List (List Conn)).map List.length).sum
      = 2 := rfl
  rw [h1, h2] at hinst
  exact absurd hinst (by decide)

/-- C7 (amended): a connection is logged verbatim to the evidence sink —
regardless of how it is classified — exactly when it carries a local
address and its identity has not been seen earlier in the run; a
connection whose identity was already seen, or that lacks a local
address, produces no evidence line for that observation. -/
theorem C7_amended_evidence (localIPs : List String)
    (procName : ℕ → Option String) (st : MonitorState) (c : Conn) :
    (∀ cid : String, connId c = some cid → cid ∉ st.seen →
      (processConn localIPs procName st c).evidence
        = st.evidence ++ [connInfo procName c] ∧
      (processConn localIPs procName st c).seen = cid :: st.seen) ∧
    (∀ cid : String, connId c = some cid → cid ∈ st.seen →
      processConn localIPs procName st c = st) ∧
    (connId c = none → processConn localIPs procName st c = st) := by
  refine ⟨?_, ?_, ?_⟩
  · intro cid hcid hnot
    unfold processConn
    rw [hcid]
    dsimp only
    rw [if_neg hnot]
    exact ⟨by rw [analyze_connection_logLine], rfl⟩
  · intro cid hcid hmem
    unfold processConn
    rw [hcid]
    dsimp only
    rw [if_pos hmem]
  · intro hnone
    unfold processConn
    rw [hnone]

theorem C7_amended_evidence_witness :
    ((processConn [] (fun _ => none) initMonitorState cBoth).evidence
        = [connInfo (fun _ => none) cBoth] ∧
     (processConn [] (fun _ => none) initMonitorState cBoth).seen
        = ["1.2.3.4:10-5.6.7.8:20-ESTABLISHED"]) ∧
    processConn [] (fun _ => none)
        (⟨["1.2.3.4:10-5.6.7.8:20-ESTABLISHED"], ["old line"], []⟩ : MonitorState)
        cBoth
      = (⟨["1.2.3.4:10-5.6.7.8:20-ESTABLISHED"], ["old line"], []⟩ : MonitorState) ∧
    processConn [] (fun _ => none) initMonitorState
        (⟨none, some ⟨"5.6.7.8", 20⟩, "ESTABLISHED", none⟩ : Conn)
      = initMonitorState := by
  refine ⟨?_, ?_, ?_⟩
  · have := (C7_amended_evidence [] (fun _ => none) initMonitorState cBoth).1
      "1.2.3.4:10-5.6.7.8:20-ESTABLISHED" rfl (by decide)
    exact this
  · exact (C7_amended_evidence [] (fun _ => none)
      (⟨["1.2.3.4:10-5.6.7.8:20-ESTABLISHED"], ["old line"], []⟩ : MonitorState)
      cBoth).2.1 "1.2.3.4:10-5.6.7.8:20-ESTABLISHED" rfl (by decide)
  · exact (C7_amended_evidence [] (fun _ => none) initMonitorState
      (⟨none, some ⟨"5.6.7.8", 20⟩, "ESTABLISHED", none⟩ : Conn)).2.2 rfl

/-! ### File-event classifier (`src/files/file_monitor.py`) -/

/-- Seconds within which identical (kind, path) events are deduplicated
(source: `FileAccessMonitor.event_window = 1`). -/
def event_window : ℚ := 1

/-- Kind of a watchdog filesystem event. -/
inductive FsKind
  | created
  | modified
  | deleted
  | moved
deriving DecidableEq, Repr

/-- One watchdog event: kind, directory flag, source path and (for
moves) destination path. -/
structure FsEvent where
  kind : FsKind
  isDirectory : Bool
  srcPath : String
  destPath : String
deriving DecidableEq, Repr

/-- One alert handed to `AlertSystem.send_alert`: message, severity tag
and whether the audible channel is requested. -/
structure SentAlert where
  message : String
  severity : String
  playSound : Bool
deriving DecidableEq, Repr

/-- File-monitor state: the `recent_events` key-to-timestamp map
(newest binding first), the `file_access.log` lines as (event type,
path) pairs, and the alerts sent. -/
structure FileMonState where
  recentEvents : List (String × ℚ)
  fileLog : List (String × String)
  alerts : List SentAlert
deriving DecidableEq, Repr

/-- State of a freshly constructed `FileAccessMonitor`. -/
def initFileMonState : FileMonState := ⟨[], [], []⟩

/-- `FileAccessMonitor.should_alert`: suppress when the key fired within
the last `event_window` seconds; otherwise record the key at `now` and
allow the alert. -/
def should_alert (recent : List (String × ℚ)) (key : String) (now : ℚ) :
    Bool × List (String × ℚ) :=
  match recent.lookup key with
  | some t =>
    if now - t < event_window then (false, recent)
    else (true, (key, now) :: recent)
  | none => (true, (key, now) :: recent)

/-- `FileAccessMonitor.log_file_event`: append one line to the evidence
log (the wall-clock prefix is outside the model). -/
def log_file_event (st : FileMonState) (eventType path : String) :
    FileMonState :=
  { st with fileLog := st.fileLog ++ [(eventType, path)] }

/-- `FileAccessMonitor.on_modified`. -/
def on_modified (st : FileMonState) (e : FsEvent) (now : ℚ) : FileMonState :=
  if e.isDirectory then st
  else
    let st1 := log_file_event st "MODIFIED" e.srcPath
    let r := should_alert st1.recentEvents ("modified:" ++ e.srcPath) now
    let st2 := { st1 with recentEvents := r.2 }
    if r.1 then
      { st2 with alerts := st2.alerts ++
          [⟨"File modified: " ++ e.srcPath, "FILE_MODIFIED", false⟩] }
    else st2

/-- `FileAccessMonitor.on_created`. -/
def on_created (st : FileMonState) (e : FsEvent) (now : ℚ) : FileMonState :=
  if e.isDirectory then st
  else
    let st1 := log_file_event st "CREATED" e.srcPath
    let r := should_alert st1.recentEvents ("created:" ++ e.srcPath) now
    let st2 := { st1 with recentEvents := r.2 }
    if r.1 then
      { st2 with alerts := st2.alerts ++
          [⟨"File created: " ++ e.srcPath, "FILE_CREATED", false⟩] }
    else st2

/-- `FileAccessMonitor.on_deleted`: always alerts, with sound, and never
consults or updates the deduplication map. -/
def on_deleted (st : FileMonState) (e : FsEvent) : FileMonState :=
  if e.isDirectory then st
  else
    let st1 := log_file_event st "DELETED" e.srcPath
    { st1 with alerts := st1.alerts ++
        [⟨"FILE DELETION DETECTED: " ++ e.srcPath, "FILE_DELETED", true⟩] }

/-- `FileAccessMonitor.on_moved`. -/
def on_moved (st : FileMonState) (e : FsEvent) : FileMonState :=
  if e.isDirectory then st
  else
    let st1 := log_file_event st
      ("MOVED from " ++ e.srcPath ++ " to " ++ e.destPath) ""
    { st1 with alerts := st1.alerts ++
        [⟨"File moved: " ++ e.srcPath ++ " -> " ++ e.destPath,
          "FILE_MOVED", false⟩] }

/-- Dispatch of one watchdog event to its handler. -/
def handleFsEvent (st : FileMonState) (e : FsEvent) (now : ℚ) :
    FileMonState :=
  match e.kind with
  | .modified => on_modified st e now
  | .created => on_created st e now
  | .deleted => on_deleted st e
  | .moved => on_moved st e

/-- C5: for every non-directory event — a deleted event always alerts
with the audible channel, regardless of the deduplication map; a
modified or created event whose (kind, path) key alerted within the
last second is suppressed from alerting but still written to the
evidence log; otherwise it alerts without the audible channel (and is
logged). -/
theorem C5_file_event_policy (st : FileMonState) (e : FsEvent) (now : ℚ)
    (hdir : e.isDirectory = false) :
    (e.kind = FsKind.deleted →
      handleFsEvent st e now =
        { st with fileLog := st.fileLog ++ [("DELETED", e.srcPath)],
                  alerts := st.alerts ++
                    [⟨"FILE DELETION DETECTED: " ++ e.srcPath,
                      "FILE_DELETED", true⟩] }) ∧
    (e.kind = FsKind.modified →
      (∀ t : ℚ, st.recentEvents.lookup ("modified:" ++ e.srcPath) = some t →
        now - t < event_window →
        (handleFsEvent st e now).alerts = st.alerts ∧
        (handleFsEvent st e now).fileLog
          = st.fileLog ++ [("MODIFIED", e.srcPath)]) ∧
      ((∀ t : ℚ, st.recentEvents.lookup ("modified:" ++ e.srcPath) = some t →
          event_window ≤ now - t) →
        (handleFsEvent st e now).alerts = st.alerts ++
          [⟨"File modified: " ++ e.srcPath, "FILE_MODIFIED", false⟩] ∧
        (handleFsEvent st e now).fileLog
          = st.fileLog ++ [("MODIFIED", e.srcPath)])) ∧
    (e.kind = FsKind.created →
      (∀ t : ℚ, st.recentEvents.lookup ("created:" ++ e.srcPath) = some t →
        now - t < event_window →
        (handleFsEvent st e now).alerts = st.alerts ∧
        (handleFsEvent st e now).fileLog
          = st.fileLog ++ [("CREATED", e.srcPath)]) ∧
      ((∀ t : ℚ, st.recentEvents.lookup ("created:" ++ e.srcPath) = some t →
          event_window ≤ now - t) →
        (handleFsEvent st e now).alerts = st.alerts ++
          [⟨"File created: " ++ e.srcPath, "FILE_CREATED", false⟩] ∧
        (handleFsEvent st e now).fileLog
          = st.fileLog ++ [("CREATED", e.srcPath)])) := by
  refine ⟨?_, ?_, ?_⟩
  · intro hk
    unfold handleFsEvent
    rw [hk]
    unfold on_deleted log_file_event
    rw [if_neg (by rw [hdir]; exact Bool.false_ne_true)]
  · intro hk
    constructor
    · intro t ht hlt
      unfold handleFsEvent
      rw [hk]
      unfold on_modified log_file_event should_alert
      rw [if_neg (by rw [hdir]; exact Bool.false_ne_true)]
      dsimp only
      rw [ht]
      dsimp only
      rw [if_pos hlt]
      exact ⟨rfl, rfl⟩
    · intro hstale
      unfold handleFsEvent
      rw [hk]
      unfold on_modified log_file_event should_alert
      rw [if_neg (by rw [hdir]; exact Bool.false_ne_true)]
      dsimp only
      cases hlk : st.recentEvents.lookup ("modified:" ++ e.srcPath) with
      | none => exact ⟨rfl, rfl⟩
      | some t =>
        dsimp only
        simp only [if_neg (not_lt.mpr (hstale t hlk))]
        exact ⟨rfl, rfl⟩
  · intro hk
    constructor
    · intro t ht hlt
      unfold handleFsEvent
      rw [hk]
      unfold on_created log_file_event should_alert
      rw [if_neg (by rw [hdir]; exact Bool.false_ne_true)]
      dsimp only
      rw [ht]
      dsimp only
      rw [if_pos hlt]
      exact ⟨rfl, rfl⟩
    · intro hstale
      unfold handleFsEvent
      rw [hk]
      unfold on_created log_file_event should_alert
      rw [if_neg (by rw [hdir]; exact Bool.false_ne_true)]
      dsimp only
      cases hlk : st.recentEvents.lookup ("created:" ++ e.srcPath) with
      | none => exact ⟨rfl, rfl⟩
      | some t =>
        dsimp only
        simp only [if_neg (not_lt.mpr (hstale t hlk))]
        exact ⟨rfl, rfl⟩

/-- File-monitor state for the C5 witness: the modified-key for
`/home/u/doc.txt` alerted at time 0. -/
def stRec : FileMonState :=
  ⟨[("modified:/home/u/doc.txt", 0)], [], []⟩

/-- Non-directory modification event on the tracked path. -/
def eMod : FsEvent := ⟨FsKind.modified, false, "/home/u/doc.txt", ""⟩

/-- Non-directory deletion event on the tracked path. -/
def eDel : FsEvent := ⟨FsKind.deleted, false, "/home/u/doc.txt", ""⟩

theorem C5_file_event_policy_witness :
    (handleFsEvent stRec eDel (1/2) =
      { stRec with fileLog := stRec.fileLog ++ [("DELETED", "/home/u/doc.txt")],
                   alerts := stRec.alerts ++
                     [⟨"FILE DELETION DETECTED: " ++ "/home/u/doc.txt",
                       "FILE_DELETED", true⟩] }) ∧
    ((handleFsEvent stRec eMod (1/2)).alerts = stRec.alerts ∧
     (handleFsEvent stRec eMod (1/2)).fileLog
        = stRec.fileLog ++ [("MODIFIED", "/home/u/doc.txt")]) ∧
    ((handleFsEvent stRec eMod 2).alerts = stRec.alerts ++
        [⟨"File modified: " ++ "/home/u/doc.txt", "FILE_MODIFIED", false⟩] ∧
     (handleFsEvent stRec eMod 2).fileLog
        = stRec.fileLog ++ [("MODIFIED", "/home/u/doc.txt")]) := by
  refine ⟨?_, ?_, ?_⟩
  · exact (C5_file_event_policy stRec eDel (1/2) rfl).1 rfl
  · exact ((C5_file_event_policy stRec eMod (1/2) rfl).2.1 rfl).1 0 rfl
      (by norm_num [event_window])
  · refine ((C5_file_event_policy stRec eMod 2 rfl).2.1 rfl).2 ?_
    intro t h
    have h0 : stRec.recentEvents.lookup ("modified:" ++ eMod.srcPath)
        = some (0 : ℚ) := rfl
    rw [h0] at h
    cases Option.some.inj h
    norm_num [event_window]

/-! ### Process watcher (`src/process/process_monitor.py`) -/

/-- The configured suspicious substrings
(source: `ProcessMonitor.suspicious_names`). -/
def suspicious_names : List String :=
  ["nc", "netcat", "nmap", "masscan", "hping",
   "metasploit", "msfconsole", "armitage",
   "mimikatz", "procdump", "pwdump",
   "keylogger", "logger",
   "cryptominer", "xmrig", "minergate",
   "backdoor", "trojan", "rootkit"]

/-- CPU-usage threshold in percent (source: `cpu_threshold = 80`). -/
def cpu_threshold : ℚ := 80

/-- Memory-usage threshold in percent (source: `memory_threshold = 80`). -/
def memory_threshold : ℚ := 80

/-- Consecutive over-threshold readings before a resource alert
(source: `alert_threshold = 3`). -/
def alert_threshold : ℕ := 3

/-- Python `str.lower`, modelled characterwise so it is
kernel-computable. -/
def toLowerStr (s : String) : String :=
  (s.toList.map Char.toLower).asString

/-- Python `needle in hay` on strings: some suffix of the character
list starts with the needle. -/
def containsSub (hay needle : String) : Bool :=
  (List.range (hay.toList.length + 1)).any
    (fun i => needle.toList.isPrefixOf (hay.toList.drop i))

/-- Python character-based slice `s[:n]`. -/
def strTake (s : String) (n : ℕ) : String :=
  (s.toList.take n).asString

/-- `ProcessMonitor.is_suspicious_name`: the lowered process name
contains one of the configured substrings. -/
def is_suspicious_name (process_name : String) : Bool :=
  suspicious_names.any (fun s => containsSub (toLowerStr process_name) s)

/-- One row of the process table as consumed by the two checks:
pid, name, owning user, command line, CPU and memory percentages. -/
structure ProcRecord where
  pid : ℕ
  name : String
  username : String
  cmdline : String
  cpu : ℚ
  mem : ℚ
deriving DecidableEq, Repr

/-- The SUSPICIOUS_PROCESS alert of `check_new_processes`. -/
def newProcAlert (p : ProcRecord) : SentAlert :=
  ⟨"SUSPICIOUS PROCESS DETECTED | Name: " ++ p.name ++ " | PID: " ++
   toString p.pid ++ " | User: " ++ p.username ++ " | Command: " ++
   strTake p.cmdline 100, "SUSPICIOUS_PROCESS", true⟩

/-- The NEW_PROCESS line of `log_process_event`. -/
def newProcLog (p : ProcRecord) : String × String :=
  ("NEW_PROCESS", "PID: " ++ toString p.pid ++ ", Name: " ++ p.name ++
   ", User: " ++ p.username ++ ", Command: " ++ strTake p.cmdline 100)

/-- Loop body of `ProcessMonitor.check_new_processes`: collect the pid,
and when the pid was unknown, log it and alert if the name is
suspicious. -/
def checkNewStep (known : Finset ℕ)
    (acc : Finset ℕ × List (String × String) × List SentAlert)
    (p : ProcRecord) :
    Finset ℕ × List (String × String) × List SentAlert :=
  let current := insert p.pid acc.1
  if p.pid ∉ known then
    if is_suspicious_name p.name then
      (current, acc.2.1 ++ [newProcLog p], acc.2.2 ++ [newProcAlert p])
    else (current, acc.2.1 ++ [newProcLog p], acc.2.2)
  else (current, acc.2.1, acc.2.2)

/-- `ProcessMonitor.check_new_processes` over one snapshot: returns the
new `known_processes` set, the NEW_PROCESS log lines and the
SUSPICIOUS_PROCESS alerts, in snapshot order. -/
def check_new_processes (known : Finset ℕ) (snap : List ProcRecord) :
    Finset ℕ × List (String × String) × List SentAlert :=
  snap.foldl (checkNewStep known) (∅, [], [])

/-- The processes of a snapshot that `check_new_processes` alerts on:
unknown pid and suspicious name. -/
def suspFilter (known : Finset ℕ) (snap : List ProcRecord) :
    List ProcRecord :=
  snap.filter (fun q => decide (q.pid ∉ known) && is_suspicious_name q.name)

/-- Per-pid, per-metric streak-counter store
(`ProcessMonitor.high_resource_tracker`, a `defaultdict(int)` keyed by
strings `cpu_<pid>` / `mem_<pid>`). -/
def ResourceTracker : Type := String → ℕ

/-- Fresh tracker: every counter is 0. -/
def initResourceTracker : ResourceTracker := fun _ => 0

/-- Key for the CPU streak of a pid. -/
def cpuKey (pid : ℕ) : String := "cpu_" ++ toString pid

/-- Key for the memory streak of a pid. -/
def memKey (pid : ℕ) : String := "mem_" ++ toString pid

/-- The HIGH_CPU alert of `check_resource_usage`. -/
def highCpuAlert (p : ProcRecord) : SentAlert :=
  ⟨"HIGH CPU USAGE | Process: " ++ p.name ++ " (PID: " ++
   toString p.pid ++ ")", "HIGH_CPU", false⟩

/-- The HIGH_MEMORY alert of `check_resource_usage`. -/
def highMemAlert (p : ProcRecord) : SentAlert :=
  ⟨"HIGH MEMORY USAGE | Process: " ++ p.name ++ " (PID: " ++
   toString p.pid ++ ")", "HIGH_MEMORY", false⟩

/-- CPU half of the `check_resource_usage` loop body: increment the
streak when over threshold, alert and reset once it reaches the alert
threshold, reset immediately when at/under threshold. -/
def checkProcCpu (tr : ResourceTracker) (p : ProcRecord) :
    ResourceTracker × List (String × String) × List SentAlert :=
  if cpu_threshold < p.cpu then
    if alert_threshold ≤ tr (cpuKey p.pid) + 1 then
      (Function.update tr (cpuKey p.pid) 0,
       [("HIGH_CPU", "PID: " ++ toString p.pid ++ ", Name: " ++ p.name)],
       [highCpuAlert p])
    else
      (Function.update tr (cpuKey p.pid) (tr (cpuKey p.pid) + 1), [], [])
  else (Function.update tr (cpuKey p.pid) 0, [], [])

/-- Memory half of the `check_resource_usage` loop body. -/
def checkProcMem (tr : ResourceTracker) (p : ProcRecord) :
    ResourceTracker × List (String × String) × List SentAlert :=
  if memory_threshold < p.mem then
    if alert_threshold ≤ tr (memKey p.pid) + 1 then
      (Function.update tr (memKey p.pid) 0,
       [("HIGH_MEMORY", "PID: " ++ toString p.pid ++ ", Name: " ++ p.name)],
       [highMemAlert p])
    else
      (Function.update tr (memKey p.pid) (tr (memKey p.pid) + 1), [], [])
  else (Function.update tr (memKey p.pid) 0, [], [])

/-- One process of the `check_resource_usage` loop: CPU check, then
memory check, accumulating log lines and alerts in order. -/
def check_resource_proc (tr : ResourceTracker) (p : ProcRecord) :
    ResourceTracker × List (String × String) × List SentAlert :=
  let rc := checkProcCpu tr p
  let rm := checkProcMem rc.1 p
  (rm.1, rc.2.1 ++ rm.2.1, rc.2.2 ++ rm.2.2)

/-- `ProcessMonitor.check_resource_usage` over one snapshot. -/
def check_resource_usage (tr : ResourceTracker) (snap : List ProcRecord) :
    ResourceTracker × List (String × String) × List SentAlert :=
  snap.foldl
    (fun acc p =>
      let r := check_resource_proc acc.1 p
      (r.1, acc.2.1 ++ r.2.1, acc.2.2 ++ r.2.2))
    (tr, [], [])

lemma cpuKey_ne_memKey (i j : ℕ) : cpuKey i ≠ memKey j := by
  intro h
  have hdata : ("cpu_" ++ toString i).data = ("mem_" ++ toString j).data :=
    congrArg String.data h
  rw [String.data_append, String.data_append] at hdata
  injection hdata with h1 _
  exact absurd h1 (by decide)

lemma checkProcMem_cpuKey (tr : ResourceTracker) (p : ProcRecord) (q : ℕ) :
    (checkProcMem tr p).1 (cpuKey q) = tr (cpuKey q) := by
  unfold checkProcMem
  split_ifs <;>
    · dsimp only
      exact Function.update_noteq (cpuKey_ne_memKey q p.pid) _ _

lemma checkProcCpu_memKey (tr : ResourceTracker) (p : ProcRecord) (q : ℕ) :
    (checkProcCpu tr p).1 (memKey q) = tr (memKey q) := by
  unfold checkProcCpu
  split_ifs <;>
    · dsimp only
      exact Function.update_noteq
        (fun hh => cpuKey_ne_memKey p.pid q hh.symm) _ _

lemma checkProcMem_no_cpu_alert (tr : ResourceTracker) (p : ProcRecord) :
    ((checkProcMem tr p).2.2).filter (fun a => a.severity == "HIGH_CPU")
      = [] := by
  unfold checkProcMem
  split_ifs <;> rfl

lemma checkProcCpu_no_mem_alert (tr : ResourceTracker) (p : ProcRecord) :
    ((checkProcCpu tr p).2.2).filter (fun a => a.severity == "HIGH_MEMORY")
      = [] := by
  unfold checkProcCpu
  split_ifs <;> rfl

lemma checkProcCpu_other (tr : ResourceTracker) (p : ProcRecord)
    (k : String) (hk : k ≠ cpuKey p.pid) :
    (checkProcCpu tr p).1 k = tr k := by
  unfold checkProcCpu
  split_ifs <;>
    · dsimp only
      exact Function.update_noteq hk _ _

lemma checkProcMem_other (tr : ResourceTracker) (p : ProcRecord)
    (k : String) (hk : k ≠ memKey p.pid) :
    (checkProcMem tr p).1 k = tr k := by
  unfold checkProcMem
  split_ifs <;>
    · dsimp only
      exact Function.update_noteq hk _ _

/-- C4: per-pid, per-metric streak behaviour of one
`check_resource_usage` iteration.  A reading at/under the threshold
resets that metric's streak to zero at once and emits no alert of that
metric's severity; an over-threshold reading whose incremented streak is
still below the alert threshold just stores the increment, silently; an
over-threshold reading whose incremented streak reaches the alert
threshold emits exactly one alert of that metric's severity and resets
the counter to zero.  CPU and memory act independently, and no other
tracker key changes. -/
theorem C4_resource_streaks (tr : ResourceTracker) (p : ProcRecord) :
    (p.cpu ≤ cpu_threshold →
      (check_resource_proc tr p).1 (cpuKey p.pid) = 0 ∧
      ((check_resource_proc tr p).2.2).filter
          (fun a => a.severity == "HIGH_CPU") = []) ∧
    (cpu_threshold < p.cpu → tr (cpuKey p.pid) + 1 < alert_threshold →
      (check_resource_proc tr p).1 (cpuKey p.pid) = tr (cpuKey p.pid) + 1 ∧
      ((check_resource_proc tr p).2.2).filter
          (fun a => a.severity == "HIGH_CPU") = []) ∧
    (cpu_threshold < p.cpu → alert_threshold ≤ tr (cpuKey p.pid) + 1 →
      (check_resource_proc tr p).1 (cpuKey p.pid) = 0 ∧
      ((check_resource_proc tr p).2.2).filter
          (fun a => a.severity == "HIGH_CPU") = [highCpuAlert p]) ∧
    (p.mem ≤ memory_threshold →
      (check_resource_proc tr p).1 (memKey p.pid) = 0 ∧
      ((check_resource_proc tr p).2.2).filter
          (fun a => a.severity == "HIGH_MEMORY") = []) ∧
    (memory_threshold < p.mem → tr (memKey p.pid) + 1 < alert_threshold →
      (check_resource_proc tr p).1 (memKey p.pid) = tr (memKey p.pid) + 1 ∧
      ((check_resource_proc tr p).2.2).filter
          (fun a => a.severity == "HIGH_MEMORY") = []) ∧
    (memory_threshold < p.mem → alert_threshold ≤ tr (memKey p.pid) + 1 →
      (check_resource_proc tr p).1 (memKey p.pid) = 0 ∧
      ((check_resource_proc tr p).2.2).filter
          (fun a => a.severity == "HIGH_MEMORY") = [highMemAlert p]) ∧
    (∀ k : String, k ≠ cpuKey p.pid → k ≠ memKey p.pid →
      (check_resource_proc tr p).1 k = tr k) := by
  have hfil : ∀ xs ys : List SentAlert, ∀ sv : String,
      (xs ++ ys).filter (fun a => a.severity == sv)
        = xs.filter (fun a => a.severity == sv)
          ++ ys.filter (fun a => a.severity == sv) :=
    fun xs ys sv => List.filter_append xs ys
  refine ⟨?_, ?_, ?_, ?_, ?_, ?_, ?_⟩
  · intro hc
    have hiff : ¬ (cpu_threshold < p.cpu) := not_lt.mpr hc
    constructor
    · show (checkProcMem (checkProcCpu tr p).1 p).1 (cpuKey p.pid) = 0
      rw [checkProcMem_cpuKey]
      unfold checkProcCpu
      rw [if_neg hiff]
      dsimp only
      rw [Function.update_same]
    · show ((checkProcCpu tr p).2.2 ++ (checkProcMem _ p).2.2).filter _ = []
      rw [hfil, checkProcMem_no_cpu_alert]
      unfold checkProcCpu
      rw [if_neg hiff]
      rfl
  · intro hc hlow
    have hnot : ¬ (alert_threshold ≤ tr (cpuKey p.pid) + 1) := by omega
    constructor
    · show (checkProcMem (checkProcCpu tr p).1 p).1 (cpuKey p.pid) = _
      rw [checkProcMem_cpuKey]
      unfold checkProcCpu
      rw [if_pos hc, if_neg hnot]
      dsimp only
      rw [Function.update_same]
    · show ((checkProcCpu tr p).2.2 ++ (checkProcMem _ p).2.2).filter _ = []
      rw [hfil, checkProcMem_no_cpu_alert]
      unfold checkProcCpu
      rw [if_pos hc, if_neg hnot]
      rfl
  · intro hc hhigh
    constructor
    · show (checkProcMem (checkProcCpu tr p).1 p).1 (cpuKey p.pid) = 0
      rw [checkProcMem_cpuKey]
      unfold checkProcCpu
      rw [if_pos hc, if_pos hhigh]
      dsimp only
      rw [Function.update_same]
    · show ((checkProcCpu tr p).2.2 ++ (checkProcMem _ p).2.2).filter _ = _
      rw [hfil, checkProcMem_no_cpu_alert]
      unfold checkProcCpu
      rw [if_pos hc, if_pos hhigh]
      rfl
  · intro hm
    have hiff : ¬ (memory_threshold < p.mem) := not_lt.mpr hm
    constructor
    · show (checkProcMem (checkProcCpu tr p).1 p).1 (memKey p.pid) = 0
      unfold checkProcMem
      rw [if_neg hiff]
      dsimp only
      rw [Function.update_same]
    · show ((checkProcCpu tr p).2.2 ++ (checkProcMem _ p).2.2).filter _ = []
      rw [hfil, checkProcCpu_no_mem_alert]
      unfold checkProcMem
      rw [if_neg hiff]
      rfl
  · intro hm hlow
    have hread : (checkProcCpu tr p).1 (memKey p.pid) = tr (memKey p.pid) :=
      checkProcCpu_memKey tr p p.pid
    have hnot : ¬ (alert_threshold ≤
        (checkProcCpu tr p).1 (memKey p.pid) + 1) := by
      rw [hread]; omega
    constructor
    · show (checkProcMem (checkProcCpu tr p).1 p).1 (memKey p.pid) = _
      unfold checkProcMem
      rw [if_pos hm, if_neg hnot]
      dsimp only
      rw [Function.update_same, hread]
    · show ((checkProcCpu tr p).2.2 ++ (checkProcMem _ p).2.2).filter _ = []
      rw [hfil, checkProcCpu_no_mem_alert]
      unfold checkProcMem
      rw [if_pos hm, if_neg hnot]
      rfl
  · intro hm hhigh
    have hread : (checkProcCpu tr p).1 (memKey p.pid) = tr (memKey p.pid) :=
      checkProcCpu_memKey tr p p.pid
    have hyes : alert_threshold ≤ (checkProcCpu tr p).1 (memKey p.pid) + 1 := by
      rw [hread]; omega
    constructor
    · show (checkProcMem (checkProcCpu tr p).1 p).1 (memKey p.pid) = 0
      unfold checkProcMem
      rw [if_pos hm, if_pos hyes]
      dsimp only
      rw [Function.update_same]
    · show ((checkProcCpu tr p).2.2 ++ (checkProcMem _ p).2.2).filter _ = _
      rw [hfil, checkProcCpu_no_mem_alert]
      unfold checkProcMem
      rw [if_pos hm, if_pos hyes]
      rfl
  · intro k hkc hkm
    show (checkProcMem (checkProcCpu tr p).1 p).1 k = tr k
    rw [checkProcMem_other _ _ _ hkm, checkProcCpu_other _ _ _ hkc]

/-- Tracker for the C4 witness: pid 7's CPU streak already at 2. -/
def trRes : ResourceTracker := fun k => if k = "cpu_7" then 2 else 0

/-- Over-threshold CPU reading for pid 7. -/
def pHot : ProcRecord := ⟨7, "stress", "root", "stress --cpu 4", 90, 50⟩

/-- At/under-threshold readings for pid 7. -/
def pCool : ProcRecord := ⟨7, "idle", "root", "", 50, 50⟩

theorem C4_resource_streaks_witness :
    ((check_resource_proc trRes pHot).1 (cpuKey 7) = 0 ∧
     ((check_resource_proc trRes pHot).2.2).filter
        (fun a => a.severity == "HIGH_CPU") = [highCpuAlert pHot]) ∧
    ((check_resource_proc trRes pCool).1 (cpuKey 7) = 0 ∧
     ((check_resource_proc trRes pCool).2.2).filter
        (fun a => a.severity == "HIGH_CPU") = []) ∧
    ((check_resource_proc trRes pCool).1 (memKey 7) = 0 ∧
     ((check_resource_proc trRes pCool).2.2).filter
        (fun a => a.severity == "HIGH_MEMORY") = []) ∧
    ((check_resource_proc trRes pHot).1 (memKey 7) = 0) ∧
    (check_resource_proc trRes pHot).1 "cpu_9" = trRes "cpu_9" := by
  refine ⟨?_, ?_, ?_, ?_, ?_⟩
  · exact (C4_resource_streaks trRes pHot).2.2.1
      (by norm_num [cpu_threshold, pHot]) (by decide)
  · exact (C4_resource_streaks trRes pCool).1
      (by norm_num [cpu_threshold, pCool])
  · exact ((C4_resource_streaks trRes pCool).2.2.2.1
      (by norm_num [memory_threshold, pCool]))
  · exact ((C4_resource_streaks trRes pHot).2.2.2.1
      (by norm_num [memory_threshold, pHot])).1
  · exact (C4_resource_streaks trRes pHot).2.2.2.2.2.2 "cpu_9"
      (by decide) (by decide)

lemma checkNewStep_new_susp (known : Finset ℕ) (cur : Finset ℕ)
    (lg : List (String × String)) (al : List SentAlert) (p : ProcRecord)
    (hpk : p.pid ∉ known) (hsusp : is_suspicious_name p.name = true) :
    checkNewStep known (cur, lg, al) p
      = (insert p.pid cur, lg ++ [newProcLog p], al ++ [newProcAlert p]) := by
  unfold checkNewStep
  dsimp only
  rw [if_pos hpk, if_pos hsusp]

lemma checkNewStep_new_benign (known : Finset ℕ) (cur : Finset ℕ)
    (lg : List (String × String)) (al : List SentAlert) (p : ProcRecord)
    (hpk : p.pid ∉ known) (hsusp : ¬ is_suspicious_name p.name = true) :
    checkNewStep known (cur, lg, al) p
      = (insert p.pid cur, lg ++ [newProcLog p], al) := by
  unfold checkNewStep
  dsimp only
  rw [if_pos hpk, if_neg hsusp]

lemma checkNewStep_old (known : Finset ℕ) (cur : Finset ℕ)
    (lg : List (String × String)) (al : List SentAlert) (p : ProcRecord)
    (hpk : ¬ p.pid ∉ known) :
    checkNewStep known (cur, lg, al) p = (insert p.pid cur, lg, al) := by
  unfold checkNewStep
  dsimp only
  rw [if_neg hpk]

lemma check_new_aux (known : Finset ℕ) (snap : List ProcRecord) :
    ∀ (cur : Finset ℕ) (lg : List (String × String)) (al : List SentAlert),
      snap.foldl (checkNewStep known) (cur, lg, al)
        = (cur ∪ (snap.map (fun q => q.pid)).toFinset,
           lg ++ (snap.filter (fun q => decide (q.pid ∉ known))).map newProcLog,
           al ++ (suspFilter known snap).map newProcAlert) := by
  induction snap with
  | nil => intro cur lg al; simp [suspFilter]
  | cons p ps ih =>
    intro cur lg al
    rw [List.foldl_cons]
    by_cases hpk : p.pid ∉ known
    · by_cases hsusp : is_suspicious_name p.name = true
      · rw [checkNewStep_new_susp known cur lg al p hpk hsusp, ih]
        simp [suspFilter, List.filter_cons, hpk, hsusp,
          Finset.insert_union, Finset.union_insert]
      · rw [checkNewStep_new_benign known cur lg al p hpk hsusp, ih]
        simp [suspFilter, List.filter_cons, hpk, hsusp,
          Finset.insert_union, Finset.union_insert]
    · rw [checkNewStep_old known cur lg al p hpk, ih]
      simp [suspFilter, List.filter_cons, hpk,
        Finset.insert_union, Finset.union_insert]

/-- C6: behaviour of new-process detection across ticks.  (a) After a
tick, the known-pid set is exactly the snapshot's pids.  (b) A tick's
SUSPICIOUS_PROCESS alerts are exactly one alert, in order, per snapshot
process whose pid was absent from the previous tick's pid set and whose
name matches a suspicious substring.  (c) Under a duplicate-free pid
column, such a process contributes exactly one entry.  (d) On the
following tick no alert concerns any pid that was present in the
previous snapshot.  (e) A suspicious process that disappears for a tick
and reappears alerts again. -/
theorem C6_suspicious_once (known : Finset ℕ)
    (snap snap2 snap3 : List ProcRecord) (p : ProcRecord) :
    ((check_new_processes known snap).1
        = (snap.map (fun q => q.pid)).toFinset) ∧
    ((check_new_processes known snap).2.2
        = (suspFilter known snap).map newProcAlert) ∧
    (p ∈ snap → p.pid ∉ known → is_suspicious_name p.name = true →
      (snap.map (fun q => q.pid)).Nodup →
      (suspFilter known snap).count p = 1) ∧
    (∀ q : ProcRecord,
      q ∈ suspFilter ((check_new_processes known snap).1) snap2 →
      q.pid ∉ snap.map (fun r => r.pid)) ∧
    (p ∈ snap3 → p.pid ∉ snap2.map (fun q => q.pid) →
      is_suspicious_name p.name = true →
      newProcAlert p ∈ (check_new_processes
          ((check_new_processes known snap2).1) snap3).2.2) := by
  have haux := check_new_aux known snap ∅ [] []
  have hA : (check_new_processes known snap).1
      = (snap.map (fun q => q.pid)).toFinset := by
    unfold check_new_processes
    rw [haux]
    simp
  have hB : ∀ (kn : Finset ℕ) (sp : List ProcRecord),
      (check_new_processes kn sp).2.2 = (suspFilter kn sp).map newProcAlert := by
    intro kn sp
    unfold check_new_processes
    rw [check_new_aux kn sp ∅ [] []]
    simp
  refine ⟨hA, hB known snap, ?_, ?_, ?_⟩
  · intro hmem hnew hsusp hnodup
    have hp : p ∈ suspFilter known snap := by
      refine List.mem_filter.mpr ⟨hmem, ?_⟩
      simp [hnew, hsusp]
    have hsnodup : snap.Nodup := List.Nodup.of_map _ hnodup
    exact List.count_eq_one_of_mem (List.Nodup.filter _ hsnodup) hp
  · intro q hq
    have hcond := (List.mem_filter.mp hq).2
    rw [hA] at hcond
    simp only [Bool.and_eq_true, decide_eq_true_eq,
      List.mem_toFinset] at hcond
    exact hcond.1
  · intro h3 habs hsusp
    rw [hB]
    refine List.mem_map_of_mem newProcAlert ?_
    refine List.mem_filter.mpr ⟨h3, ?_⟩
    have hA2 : (check_new_processes known snap2).1
        = (snap2.map (fun q => q.pid)).toFinset := by
      unfold check_new_processes
      rw [check_new_aux known snap2 ∅ [] []]
      simp
    rw [hA2]
    simp only [Bool.and_eq_true, decide_eq_true_eq, List.mem_toFinset]
    exact ⟨habs, hsusp⟩

/-- Suspiciously named process used by the C6 witness. -/
def pSus : ProcRecord :=
  ⟨42, "nmap-probe", "root", "nmap -sS 10.0.0.0/24", 1, 1⟩

theorem C6_suspicious_once_witness :
    (check_new_processes ∅ [pSus]).2.2 = [newProcAlert pSus] ∧
    (suspFilter ∅ [pSus]).count pSus = 1 ∧
    pSus ∉ suspFilter ((check_new_processes ∅ [pSus]).1) [pSus] ∧
    newProcAlert pSus ∈
      (check_new_processes ((check_new_processes ∅ ([] : List ProcRecord)).1)
        [pSus]).2.2 := by
  refine ⟨?_, ?_, ?_, ?_⟩
  · rw [(C6_suspicious_once ∅ [pSus] [] [] pSus).2.1]
    rfl
  · exact (C6_suspicious_once ∅ [pSus] [] [] pSus).2.2.1
      (by decide) (by decide) (by decide) (by decide)
  · intro hmem
    have := (C6_suspicious_once ∅ [pSus] [pSus] [] pSus).2.2.2.1 pSus hmem
    exact this (by decide)
  · exact (C6_suspicious_once ∅ [] [] [pSus] pSus).2.2.2.2
      (by decide) (by decide) (by decide)

/-! ### Per-item exception isolation
(`ProcessMonitor.check_resource_usage`, `NetworkMonitor.monitor`) -/

/-- The psutil exceptions caught by the per-process loops
(`except (NoSuchProcess, AccessDenied, ZombieProcess): continue`). -/
inductive PsErr
  | noSuchProcess
  | accessDenied
  | zombieProcess
deriving DecidableEq, Repr

/-- The healthy items of a fallible stream. -/
def okItems {ε α : Type} (items : List (Except ε α)) : List α :=
  items.filterMap (fun it => match it with
    | Except.ok a => some a
    | Except.error _ => none)

/-- Loop body of a `for` whose per-item work is wrapped in
`try: ... except ...: continue`: a failing item leaves the accumulator
untouched, a healthy item is processed by `f`. -/
def skipErr {ε α β : Type} (f : β → α → β) (b : β) (it : Except ε α) : β :=
  match it with
  | Except.error _ => b
  | Except.ok a => f b a

/-- `check_resource_usage` over a snapshot whose rows may raise while
their fields are read: the `except ...: continue` drops the failing row
and the loop goes on with the next one. -/
def check_resource_usage_exc (tr : ResourceTracker)
    (items : List (Except PsErr ProcRecord)) :
    ResourceTracker × List (String × String) × List SentAlert :=
  items.foldl
    (skipErr (fun acc p =>
      let r := check_resource_proc acc.1 p
      (r.1, acc.2.1 ++ r.2.1, acc.2.2 ++ r.2.2)))
    (tr, [], [])

/-- The per-connection loop of `NetworkMonitor.monitor` with per-item
failures: the `except Exception: continue` drops the failing item. -/
def processPoll_exc (localIPs : List String) (procName : ℕ → Option String)
    (st : MonitorState) (items : List (Except String Conn)) : MonitorState :=
  items.foldl (skipErr (processConn localIPs procName)) st

lemma foldl_exc {α β ε : Type} (f : β → α → β) :
    ∀ (items : List (Except ε α)) (acc : β),
      items.foldl (skipErr f) acc = (okItems items).foldl f acc := by
  intro items
  induction items with
  | nil => intro acc; rfl
  | cons it rest ih =>
    intro acc
    cases it with
    | error e =>
      have h1 : okItems (Except.error e :: rest) = okItems rest := rfl
      rw [List.foldl_cons, h1]
      exact ih acc
    | ok a =>
      have h1 : okItems (Except.ok a :: rest) = a :: okItems rest := rfl
      rw [List.foldl_cons, h1, List.foldl_cons]
      exact ih (f acc a)

/-- C8: a per-item exception never terminates the surrounding loop: a
run over a fallible stream completes and equals the clean run over just
the healthy items, for both the resource loop (which catches the psutil
exception types its rows can raise) and the connection loop (which
catches every exception). -/
theorem C8_per_item_isolation (tr : ResourceTracker)
    (items : List (Except PsErr ProcRecord))
    (localIPs : List String) (procName : ℕ → Option String)
    (st : MonitorState) (cItems : List (Except String Conn)) :
    check_resource_usage_exc tr items
        = check_resource_usage tr (okItems items) ∧
    processPoll_exc localIPs procName st cItems
        = processPoll localIPs procName st (okItems cItems) := by
  constructor
  · unfold check_resource_usage_exc check_resource_usage
    exact foldl_exc
      (fun acc p =>
        let r := check_resource_proc acc.1 p
        (r.1, acc.2.1 ++ r.2.1, acc.2.2 ++ r.2.2))
      items (tr, [], [])
  · unfold processPoll_exc processPoll
    exact foldl_exc (processConn localIPs procName) cItems st

/-! ### Alert sink (`src/network/alert_system.py`) -/

/-- Availability of the two best-effort channels: whether the sound
backend and the desktop-notification backend succeed. -/
structure ChannelEnv where
  soundWorks : Bool
  notifyWorks : Bool
deriving DecidableEq, Repr

/-- The platform sound cue; raises when the backend is unavailable. -/
def beepBackend (env : ChannelEnv) : Except String Unit :=
  if env.soundWorks then Except.ok () else Except.error "sound backend failure"

/-- The desktop popup backend; raises when unavailable. -/
def notifyBackend (env : ChannelEnv) : Except String Unit :=
  if env.notifyWorks then Except.ok ()
  else Except.error "notification backend failure"

/-- A `try: ... except Exception: pass` wrapper: any raise is swallowed. -/
def catchPass (m : Except String Unit) : Except String Unit :=
  match m with
  | Except.ok _ => Except.ok ()
  | Except.error _ => Except.ok ()

/-- `AlertSystem.play_alert_sound`: the whole body is inside
`try/except: pass`. -/
def play_alert_sound (env : ChannelEnv) : Except String Unit :=
  catchPass (beepBackend env)

/-- `AlertSystem.send_desktop_notification`: the whole body is inside
`try/except: pass`.  The title and message arguments are kept to mirror
the call shape. -/
def send_desktop_notification (env : ChannelEnv)
    (_title _message : String) : Except String Unit :=
  catchPass (notifyBackend env)

/-- What one `send_alert` dispatch produced: whether each optional
channel was invoked, the console line, and the durable `alerts.log`
line. -/
structure DispatchTrace where
  soundAttempted : Bool
  notifyAttempted : Bool
  consoleLines : List String
  logLines : List String
deriving DecidableEq, Repr

/-- `AlertSystem.send_alert` in the `Except` monad: sound channel (when
requested), then notification channel (when requested), then console
and the durable log line.  An uncaught exception in an earlier step
would abort the later steps, including the log write. -/
def send_alert (env : ChannelEnv) (message severity : String)
    (play_sound notify : Bool) (ts : String) :
    Except String DispatchTrace :=
  Except.bind
    (if play_sound then play_alert_sound env else Except.ok ())
    (fun _ =>
      Except.bind
        (if notify then
          send_desktop_notification env ("🚨 " ++ severity)
            (if 200 < message.length then strTake message 200 ++ "..."
             else message)
        else Except.ok ())
        (fun _ =>
          Except.ok
            { soundAttempted := play_sound,
              notifyAttempted := notify,
              consoleLines := [severity ++ ": " ++ message],
              logLines :=
                ["[" ++ ts ++ "] [" ++ severity ++ "] " ++ message] }))

/-- C9: dispatch always returns successfully with the durable log line
written, whatever the availability of the sound and notification
backends; channel failures are swallowed inside the sink and the
requested channels are attempted independently of each other's
failures. -/
theorem C9_dispatch_always_logs (env : ChannelEnv)
    (message severity : String) (play_sound notify : Bool) (ts : String) :
    send_alert env message severity play_sound notify ts =
      Except.ok
        { soundAttempted := play_sound,
          notifyAttempted := notify,
          consoleLines := [severity ++ ": " ++ message],
          logLines := ["[" ++ ts ++ "] [" ++ severity ++ "] " ++ message] }
    := by
  rcases env with ⟨s, n⟩
  unfold send_alert play_alert_sound send_desktop_notification catchPass
    beepBackend notifyBackend
  cases s <;> cases n <;> cases play_sound <;> cases notify <;> rfl
